import Mathlib

/-!
Shallow embedding of `baseline/vcp/model/layers.py` (graph link-prediction
layers): the layer-name registry, the base `Layer` construction contract,
the `Dense`, `GCN` and `MLPDecoder` layers' core computations, together with
proofs of the specification's testable properties.

Tensors are modelled as Mathlib matrices over `ℚ` (exact arithmetic in place
of floating point); randomness (dropout masks, weight initialisation) is
externalised into explicit arguments; TensorFlow primitives used by the code
(`tf.nn.dropout`, `tf.matmul`, `tf.sparse_tensor_dense_matmul`, `tf.add_n`,
`tf.gather`, `tf.abs`, `tf.squeeze`) are embedded by their documented
dense-value semantics.  Python `assert`s and index errors are embedded as
`Except`/`Option` results.
-/

namespace VCP

/-! ### Layer-name registry (`_LAYER_UIDS` / `get_layer_uid`) -/

/-- The process-wide `_LAYER_UIDS` dictionary: an association list from layer
type name to its counter, first binding wins on lookup. -/
def LayerUids : Type := List (String × Nat)

/-- Dictionary membership / lookup: `_LAYER_UIDS.get(name)`. -/
def uidsFind : LayerUids → String → Option Nat
  | [], _ => none
  | (k, v) :: rest, name => if k = name then some v else uidsFind rest name

/-- Dictionary write `_LAYER_UIDS[name] = v`: replaces the binding if the key
is present, otherwise appends a new binding. -/
def uidsSet : LayerUids → String → Nat → LayerUids
  | [], name, v => [(name, v)]
  | (k, w) :: rest, name, v =>
      if k = name then (k, v) :: rest else (k, w) :: uidsSet rest name v

/-- Operation `get_layer_uid(layer_name)`: if the name is absent, store and return `1`;
otherwise increment the stored counter and return it.  The mutated global
dictionary is returned alongside the result. -/
def get_layer_uid (layer_name : String) (s : LayerUids) : Nat × LayerUids :=
  match uidsFind s layer_name with
  | none => (1, uidsSet s layer_name 1)
  | some n => (n + 1, uidsSet s layer_name (n + 1))

/-- Runs `N` successive calls `get_layer_uid(name)` from a given registry state,
collecting the returned integers in order. -/
def runUids (name : String) : Nat → LayerUids → List Nat × LayerUids
  | 0, s => ([], s)
  | n + 1, s =>
      let r := get_layer_uid name s
      let rest := runUids name n r.2
      (r.1 :: rest.1, rest.2)

theorem uidsFind_uidsSet_self (s : LayerUids) (name : String) (v : Nat) :
    uidsFind (uidsSet s name v) name = some v := by
  induction s with
  | nil => simp [uidsSet, uidsFind]
  | cons kv rest ih =>
      by_cases h : kv.1 = name
      · simp [uidsSet, uidsFind, h]
      · simp [uidsSet, uidsFind, h, ih]

theorem uidsFind_uidsSet_other (s : LayerUids) (a b : String) (v : Nat)
    (hab : a ≠ b) : uidsFind (uidsSet s a v) b = uidsFind s b := by
  induction s with
  | nil => simp [uidsSet, uidsFind, hab]
  | cons kv rest ih =>
      by_cases h : kv.1 = a
      · simp [uidsSet, uidsFind, h, hab]
      · by_cases h' : kv.1 = b <;> simp [uidsSet, uidsFind, h, h', ih, hab.symm]

theorem get_layer_uid_fst (name : String) (s : LayerUids) :
    (get_layer_uid name s).1 =
      match uidsFind s name with
      | none => 1
      | some n => n + 1 := by
  unfold get_layer_uid
  cases uidsFind s name <;> rfl

theorem runUids_from_known (name : String) (n : Nat) :
    ∀ (s : LayerUids) (k : Nat), uidsFind s name = some k →
      (runUids name n s).1 = List.range' (k + 1) n := by
  induction n with
  | zero => intro s k _; simp [runUids]
  | succ m ih =>
      intro s k hk
      simp only [runUids, get_layer_uid, hk, List.range']
      refine congrArg (List.cons (k + 1)) ?_
      exact ih _ (k + 1) (uidsFind_uidsSet_self s name (k + 1))

/-- C5: starting from the empty registry, `N` calls to `get_layer_uid` with
the same layer-type name return exactly `1, 2, …, N` in order, hence no
integer is returned twice for that name. -/
theorem registry_uniqueness (name : String) (N : Nat) :
    (runUids name N []).1 = List.range' 1 N ∧ (runUids name N []).1.Nodup := by
  have h : (runUids name N []).1 = List.range' 1 N := by
    cases N with
    | zero => simp [runUids]
    | succ m =>
        simp only [runUids, get_layer_uid, uidsFind, List.range']
        refine congrArg (List.cons 1) ?_
        exact runUids_from_known name m _ 1 (by simp [uidsSet, uidsFind])
  exact ⟨h, h ▸ List.nodup_range' 1 N⟩

/-- C6: a call to `get_layer_uid` with name `a` leaves the counter of any
other name `b` unchanged, and the value a subsequent call with `b` would
return is also unchanged. -/
theorem registry_independence (s : LayerUids) (a b : String) (hab : a ≠ b) :
    uidsFind (get_layer_uid a s).2 b = uidsFind s b ∧
      (get_layer_uid b (get_layer_uid a s).2).1 = (get_layer_uid b s).1 := by
  have hfind : uidsFind (get_layer_uid a s).2 b = uidsFind s b := by
    unfold get_layer_uid
    cases h : uidsFind s a <;> simp [uidsFind_uidsSet_other s a b _ hab]
  refine ⟨hfind, ?_⟩
  rw [get_layer_uid_fst, get_layer_uid_fst, hfind]

/-- Witness for C6 at a concrete registry state and names. -/
theorem registry_independence_witness :
    uidsFind (get_layer_uid "dense" [("gcn", 3)]).2 "gcn" =
        uidsFind [("gcn", 3)] "gcn" ∧
      (get_layer_uid "gcn" (get_layer_uid "dense" [("gcn", 3)]).2).1 =
        (get_layer_uid "gcn" [("gcn", 3)]).1 :=
  registry_independence [("gcn", 3)] "dense" "gcn" (by decide)

/-! ### Base `Layer` construction (`Layer.__init__`) -/

/-- A Python keyword-argument value as passed to `Layer.__init__`: the code
only ever receives a string (`name`) or a boolean (`logging`). -/
inductive KwargValue where
  | str (s : String)
  | bool (b : Bool)
deriving DecidableEq

/-- Python truthiness of a kwarg value (`if not name: ...` tests this):
the empty string and `False` are falsy. -/
def KwargValue.truthy : KwargValue → Bool
  | .str s => decide (s ≠ "")
  | .bool b => b

/-- The string stored in `self.name` when the supplied `name` kwarg is
truthy (Python would store the value itself; non-string names never occur in
this code base). -/
def KwargValue.asName : KwargValue → String
  | .str s => s
  | .bool b => if b then "True" else "False"

/-- The set `allowed_kwargs` of recognised option names in `Layer.__init__`:
exactly `name` and `logging`. -/
def allowed_kwargs : List String := ["name", "logging"]

/-- The kwargs dictionary: an ordered list of key/value pairs,
`kwargs.get(k)` returns the first binding. -/
def kwargsGet : List (String × KwargValue) → String → Option KwargValue
  | [], _ => none
  | (k, v) :: rest, key => if k = key then some v else kwargsGet rest key

/-- The `assert kwarg in allowed_kwargs` loop of `Layer.__init__`: the first
unrecognised key raises `AssertionError('Invalid keyword argument: ' + kwarg)`. -/
def checkKwargs : List (String × KwargValue) → Except String Unit
  | [] => .ok ()
  | (k, _) :: rest =>
      if k ∈ allowed_kwargs then checkKwargs rest
      else .error ("Invalid keyword argument: " ++ k)

/-- State established by `Layer.__init__`: `self.name`, `self.vars = {}` is
implicit, `self.logging`, `self.sparse_inputs = False`. -/
structure LayerBase where
  name : String
  logging : Bool
  sparse_inputs : Bool
deriving DecidableEq

/-- Constructor `Layer.__init__(self, **kwargs)` for a class named `className`: validates
the kwargs, resolves the instance name (auto-naming through the registry when
the `name` kwarg is absent or falsy), and reads `logging` (default `False`).
Returns the constructed base state and the updated registry. -/
def Layer.init (className : String) (kwargs : List (String × KwargValue))
    (uids : LayerUids) : Except String (LayerBase × LayerUids) := do
  checkKwargs kwargs
  let nameKw := kwargsGet kwargs "name"
  let loggingKw :=
    match kwargsGet kwargs "logging" with
    | some (.bool b) => b
    | _ => false
  match nameKw with
  | some v =>
      if v.truthy then
        .ok ({ name := v.asName, logging := loggingKw, sparse_inputs := false }, uids)
      else
        let layer := className.toLower
        let r := get_layer_uid layer uids
        .ok ({ name := layer ++ "_" ++ toString r.1, logging := loggingKw,
               sparse_inputs := false }, r.2)
  | none =>
      let layer := className.toLower
      let r := get_layer_uid layer uids
      .ok ({ name := layer ++ "_" ++ toString r.1, logging := loggingKw,
             sparse_inputs := false }, r.2)

/-- Does an `Except` value carry an error? -/
def isErr {ε α : Type} : Except ε α → Bool
  | .error _ => true
  | .ok _ => false

theorem checkKwargs_mem_error (kwargs : List (String × KwargValue))
    (k : String) (v : KwargValue) (hmem : (k, v) ∈ kwargs)
    (hk : k ∉ allowed_kwargs) : isErr (checkKwargs kwargs) = true := by
  induction kwargs with
  | nil => cases hmem
  | cons kv rest ih =>
      rcases List.mem_cons.mp hmem with h | h
      · cases h
        simp [checkKwargs, hk, isErr]
      · by_cases hkv : kv.1 ∈ allowed_kwargs
        · simpa [checkKwargs, hkv, isErr] using ih h
        · simp [checkKwargs, hkv, isErr]

/-- C10: passing `name=\"\"` (the empty string) to a layer constructor behaves
exactly as passing no `name` at all — the empty string is falsy, so the
instance is auto-named `<lowercased class name>_<uid>` through the registry. -/
theorem empty_name_auto_naming (className : String) (uids : LayerUids) :
    Layer.init className [("name", KwargValue.str "")] uids =
        Layer.init className [] uids ∧
      Layer.init className [("name", KwargValue.str "")] uids =
        Except.ok
          ({ name := className.toLower ++ "_" ++
                toString (get_layer_uid className.toLower uids).1,
             logging := false, sparse_inputs := false },
           (get_layer_uid className.toLower uids).2) := by
  constructor
  · rfl
  · rfl

/-! ### Tensor primitives -/

/-- Primitive `tf.nn.dropout(x, keep_prob)`: every entry is kept with probability
`keep_prob` and scaled by `1/keep_prob`, dropped entries become `0`.  The
random draw is externalised into an explicit Boolean `mask`; for
`keep_prob = 1` (i.e. `dropout = 0`) every entry is kept unscaled, so the
operation is the identity independently of the mask. -/
def tfDropout {m k : Type} (keepProb : ℚ) (mask : m → k → Bool)
    (x : Matrix m k ℚ) : Matrix m k ℚ :=
  if keepProb = 1 then x
  else Matrix.of fun i j => if mask i j then x i j / keepProb else 0

theorem tfDropout_keep_all {m k : Type} (mask : m → k → Bool)
    (x : Matrix m k ℚ) : tfDropout (1 - 0) mask x = x := by
  simp [tfDropout]

/-- Helper `dot(x, y, sparse)` from `layers.py`: both branches compute the matrix
product of `x` and `y` (`tf.sparse_tensor_dense_matmul` vs `tf.matmul`); the
`sparse` flag only selects the storage-specific routine, so the dense-value
semantics is multiplication in either case. -/
def dot {l m n : Type} [Fintype m] (x : Matrix l m ℚ) (y : Matrix m n ℚ)
    (_sparse : Bool) : Matrix l n ℚ :=
  x * y

/-- Primitive `tf.add_n(inputs)`: sums a non-empty list of same-shape tensors;
TensorFlow raises on an empty list, embedded as `none`. -/
def add_n {m k : Type} : List (Matrix m k ℚ) → Option (Matrix m k ℚ)
  | [] => none
  | x :: xs => some (xs.foldl (· + ·) x)

/-! ### `Dense` layer -/

/-- State established by `Dense.__init__` for class-level dims `B × k → d`
(`B` = batch rows, `k = input_dim`, `d = output_dim`): the uniform-random
initial weights are externalised into the `weights` argument, the zero bias
`vars['node_bias']` is present exactly when `bias` is set, and the remaining
constructor arguments are stored verbatim.  `act` and the external
`tf.layers.batch_normalization` engine call are kept as function fields. -/
structure DenseLayer (B k d : Type) where
  weights : Matrix k d ℚ
  node_bias : Option (d → ℚ)
  bias : Bool
  batch_norm : Bool
  is_train : Bool
  dropout : ℚ
  act : Matrix B d ℚ → Matrix B d ℚ
  bn : Bool → Matrix B d ℚ → Matrix B d ℚ

/-- Constructor `Dense.__init__`: stores the initialised weights, creates the zero bias
tensor only when `bias` is true, and records the flags.  (Base-class kwarg
handling is `Layer.init` above; the parameter initialiser and batch-norm
engine are external, passed in as `weights` and `bn`.) -/
def Dense.init {B k d : Type} (weights : Matrix k d ℚ) (is_train : Bool)
    (dropout : ℚ) (act : Matrix B d ℚ → Matrix B d ℚ) (bias batch_norm : Bool)
    (bn : Bool → Matrix B d ℚ → Matrix B d ℚ) : DenseLayer B k d :=
  { weights := weights
    node_bias := if bias then some (fun _ => 0) else none
    bias := bias
    batch_norm := batch_norm
    is_train := is_train
    dropout := dropout
    act := act
    bn := bn }

/-- Computation `Dense._call(input)`: dropout, dense matmul with the weights, bias add
guarded by `if self.bias and not self.batch_norm`, activation, then optional
batch normalisation. -/
def Dense.call {B k d : Type} [Fintype k] (L : DenseLayer B k d)
    (mask : B → k → Bool) (input : Matrix B k ℚ) : Matrix B d ℚ :=
  let x_n := tfDropout (1 - L.dropout) mask input
  let x_w := x_n * L.weights
  let x_b :=
    if L.bias && !L.batch_norm then
      Matrix.of fun i j => x_w i j + (L.node_bias.getD (fun _ => 0)) j
    else x_w
  let n_outputs := L.act x_b
  if L.batch_norm then L.bn L.is_train n_outputs else n_outputs

/-- C4: in a `Dense` layer with both `bias=True` and `batch_norm=True` the
bias tensor is never added — the core computation's output coincides, on
every input, with that of the layer built with `bias=False`,
`batch_norm=True` from the same weights, activation and batch-norm engine
(in particular for the zero-initialised bias the constructor creates). -/
theorem dense_bias_batch_norm_exclusive {B k d : Type} [Fintype k]
    (weights : Matrix k d ℚ) (is_train : Bool) (dropout : ℚ)
    (act : Matrix B d ℚ → Matrix B d ℚ)
    (bn : Bool → Matrix B d ℚ → Matrix B d ℚ)
    (mask : B → k → Bool) (input : Matrix B k ℚ) :
    Dense.call (Dense.init weights is_train dropout act true true bn) mask input =
      Dense.call (Dense.init weights is_train dropout act false true bn) mask input := by
  simp [Dense.call, Dense.init]

/-! ### `GCN` layer -/

/-- State established by `GCN.__init__` (`n` = node rows, `k = input_dim`,
`d = output_dim`): one weight matrix per element of `range(num_support)`,
the optional shared zero bias `vars['bias_n']`, and the support list stored
verbatim — in particular its length is NOT compared with `num_support`. -/
structure GCNLayer (n k d : Type) where
  weights : List (Matrix k d ℚ)
  bias_n : Option (d → ℚ)
  support : List (Matrix n n ℚ)
  bias : Bool
  batch_norm : Bool
  is_train : Bool
  dropout : ℚ
  sparse_inputs : Bool
  act : Matrix n d ℚ → Matrix n d ℚ
  bn : Bool → Matrix n d ℚ → Matrix n d ℚ

/-- Constructor `GCN.__init__`: `assert init in ['def', 'he']` (embedded as the error
branch), selection of the initialisation strategy, creation of
`num_support` weight matrices `weights_n_i` (the external initialisers are
the arguments `initDef`/`initHe`, indexed by `i`), the optional zero bias,
and verbatim storage of `support` and the flags.  `sparse_inputs` is `False`
from the base class. -/
def GCN.init {n k d : Type} (support : List (Matrix n n ℚ)) (num_support : Nat)
    (is_train : Bool) (dropout : ℚ) (act : Matrix n d ℚ → Matrix n d ℚ)
    (bias batch_norm : Bool) (init : String)
    (initDef initHe : Nat → Matrix k d ℚ)
    (bn : Bool → Matrix n d ℚ → Matrix n d ℚ) :
    Except String (GCNLayer n k d) :=
  if init = "def" ∨ init = "he" then
    let init_func := if init = "def" then initDef else initHe
    .ok { weights := (List.range num_support).map init_func
          bias_n := if bias then some (fun _ => 0) else none
          support := support
          bias := bias
          batch_norm := batch_norm
          is_train := is_train
          dropout := dropout
          sparse_inputs := false
          act := act
          bn := bn }
  else .error "AssertionError: init not in [def, he]"

/-- The `for i in range(len(self.support))` loop of `GCN._call`: for each
support `Aᵢ` compute `tmp_n = dot(x_n, weights[i], sparse)` then
`Aᵢ · tmp_n`; indexing `weights[i]` past the end of the weight list is a
Python `IndexError`, embedded as `none`. -/
def gcnTerms {n k d : Type} [Fintype n] [Fintype k] (sparse : Bool)
    (x_n : Matrix n k ℚ) :
    List (Matrix n n ℚ) → List (Matrix k d ℚ) → Option (List (Matrix n d ℚ))
  | [], _ => some []
  | _ :: _, [] => none
  | A :: As, w :: ws =>
      (gcnTerms sparse x_n As ws).map fun rest => (A * dot x_n w sparse) :: rest

/-- Computation `GCN._call(input)`: dropout, the per-support loop, `tf.add_n`, the
optional bias add, activation, optional batch normalisation.  `none` models
the loop's index error (or `tf.add_n` on an empty list). -/
def GCN.call {n k d : Type} [Fintype n] [Fintype k] (L : GCNLayer n k d)
    (mask : n → k → Bool) (input : Matrix n k ℚ) : Option (Matrix n d ℚ) :=
  let x_n := tfDropout (1 - L.dropout) mask input
  (gcnTerms L.sparse_inputs x_n L.support L.weights).bind fun supports_n =>
    (add_n supports_n).map fun z_n =>
      let z_b :=
        if L.bias then Matrix.of fun i j => z_n i j + (L.bias_n.getD (fun _ => 0)) j
        else z_n
      let n_outputs := L.act z_b
      if L.batch_norm then L.bn L.is_train n_outputs else n_outputs

theorem gcnTerms_eq_none_of_short {n k d : Type} [Fintype n] [Fintype k]
    (sparse : Bool) (x_n : Matrix n k ℚ) :
    ∀ (support : List (Matrix n n ℚ)) (weights : List (Matrix k d ℚ)),
      weights.length < support.length → gcnTerms sparse x_n support weights = none := by
  intro support
  induction support with
  | nil => intro weights h; simp at h
  | cons A As ih =>
      intro weights h
      cases weights with
      | nil => rfl
      | cons w ws =>
          simp only [List.length_cons, Nat.succ_lt_succ_iff] at h
          simp [gcnTerms, ih ws h]

theorem gcnTerms_isSome_of_le {n k d : Type} [Fintype n] [Fintype k]
    (sparse : Bool) (x_n : Matrix n k ℚ) :
    ∀ (support : List (Matrix n n ℚ)) (weights : List (Matrix k d ℚ)),
      support.length ≤ weights.length →
      ∃ l, gcnTerms sparse x_n support weights = some l ∧
        l.length = support.length := by
  intro support
  induction support with
  | nil => intro weights _; exact ⟨[], rfl, rfl⟩
  | cons A As ih =>
      intro weights h
      cases weights with
      | nil => simp at h
      | cons w ws =>
          simp only [List.length_cons, Nat.succ_le_succ_iff] at h
          obtain ⟨l, hl, hlen⟩ := ih ws h
          exact ⟨(A * dot x_n w sparse) :: l, by simp [gcnTerms, hl], by simp [hlen]⟩

/-- C1: a `GCN` layer constructed with `support = [Identity, A]`,
`num_support = 2`, zero dropout, identity activation, no bias and no batch
norm computes exactly `X·W₀ + A·X·W₁` — each per-support term is
`Aᵢ·(X·Wᵢ)` and the terms are summed across supports. -/
theorem gcn_additivity {n k d : Type} [Fintype n] [DecidableEq n] [Fintype k]
    (A : Matrix n n ℚ) (W : Nat → Matrix k d ℚ)
    (bn : Bool → Matrix n d ℚ → Matrix n d ℚ) (is_train : Bool)
    (mask : n → k → Bool) (x : Matrix n k ℚ) :
    (GCN.init [(1 : Matrix n n ℚ), A] 2 is_train 0 id false false "def" W W bn).toOption.bind
        (fun L => GCN.call L mask x) =
      some (x * W 0 + A * x * W 1) := by
  simp [GCN.init, GCN.call, gcnTerms, add_n, tfDropout, dot,
    Except.toOption, List.range_succ, Matrix.mul_assoc]

/-- C2 counterexample: a `GCN` layer constructed with `num_support = 2` but a
support list of length 1 is NOT rejected — `GCN.__init__` performs no
support-count check, so construction succeeds. -/
theorem gcn_support_count_counterexample :
    isErr (GCN.init [(1 : Matrix (Fin 1) (Fin 1) ℚ)] 2 false 0 id false false
      "def" (fun _ => (0 : Matrix (Fin 1) (Fin 1) ℚ)) (fun _ => 0)
      (fun _ z => z)) = false := rfl

/-- C2 (amended): construction never compares `len(support)` with
`num_support` — any valid-`init` construction succeeds; the mismatch
surfaces only at invocation: the core computation hits an index error
(`weights[i]`) exactly when `len(support) > num_support`, while for a
non-empty support list with `len(support) ≤ num_support` the invocation
succeeds, silently leaving the surplus weight matrices unused. -/
theorem gcn_support_count_amended :
    (∀ {n k d : Type} (support : List (Matrix n n ℚ)) (num_support : Nat)
        (is_train : Bool) (dropout : ℚ) (act : Matrix n d ℚ → Matrix n d ℚ)
        (bias batch_norm : Bool) (initDef initHe : Nat → Matrix k d ℚ)
        (bn : Bool → Matrix n d ℚ → Matrix n d ℚ),
        isErr (GCN.init support num_support is_train dropout act bias
          batch_norm "def" initDef initHe bn) = false) ∧
    (∀ {n k d : Type} [Fintype n] [Fintype k] (L : GCNLayer n k d)
        (mask : n → k → Bool) (x : Matrix n k ℚ),
        L.weights.length < L.support.length → GCN.call L mask x = none) ∧
    (∀ {n k d : Type} [Fintype n] [Fintype k] (L : GCNLayer n k d)
        (mask : n → k → Bool) (x : Matrix n k ℚ),
        L.support ≠ [] → L.support.length ≤ L.weights.length →
        (GCN.call L mask x).isSome = true) := by
  refine ⟨?_, ?_, ?_⟩
  · intro n k d support num_support is_train dropout act bias batch_norm
      initDef initHe bn
    simp [GCN.init, isErr]
  · intro n k d _ _ L mask x h
    simp [GCN.call, gcnTerms_eq_none_of_short _ _ _ _ h]
  · intro n k d _ _ L mask x hne hlen
    obtain ⟨l, hl, hlenl⟩ := gcnTerms_isSome_of_le L.sparse_inputs
      (tfDropout (1 - L.dropout) mask x) L.support L.weights hlen
    have hpos : 0 < l.length := by
      rw [hlenl]
      exact List.length_pos.mpr hne
    obtain ⟨y, ys, rfl⟩ := List.exists_cons_of_ne_nil (List.length_pos.mp hpos)
    simp [GCN.call, hl, add_n]

/-- Witness for C2's amended theorem at concrete layers: a 1-support /
2-weight construction succeeds; a layer with 2 supports and 1 weight fails
at invocation; a layer with 1 support and 2 weights is invoked
successfully. -/
theorem gcn_support_count_amended_witness :
    isErr (GCN.init [(1 : Matrix (Fin 1) (Fin 1) ℚ)] 2 false 0 id false false
        "def" (fun _ => (0 : Matrix (Fin 1) (Fin 1) ℚ)) (fun _ => 0)
        (fun _ z => z)) = false ∧
      GCN.call
        { weights := [(0 : Matrix (Fin 1) (Fin 1) ℚ)]
          bias_n := none
          support := [(1 : Matrix (Fin 1) (Fin 1) ℚ), 1]
          bias := false, batch_norm := false, is_train := false
          dropout := 0, sparse_inputs := false, act := id
          bn := fun _ z => z } (fun _ _ => true) 1 = none ∧
      (GCN.call
        { weights := [(0 : Matrix (Fin 1) (Fin 1) ℚ), 0]
          bias_n := none
          support := [(1 : Matrix (Fin 1) (Fin 1) ℚ)]
          bias := false, batch_norm := false, is_train := false
          dropout := 0, sparse_inputs := false, act := id
          bn := fun _ z => z } (fun _ _ => true) 1).isSome = true :=
  ⟨gcn_support_count_amended.1 _ 2 false 0 id false false _ _ _,
   gcn_support_count_amended.2.1 _ _ _ (by decide),
   gcn_support_count_amended.2.2 _ _ _ (by decide) (by decide)⟩

theorem layer_init_err_of_checkKwargs_err (className : String)
    (kwargs : List (String × KwargValue)) (uids : LayerUids)
    (h : isErr (checkKwargs kwargs) = true) :
    isErr (Layer.init className kwargs uids) = true := by
  unfold Layer.init
  cases hck : checkKwargs kwargs with
  | error e => rfl
  | ok u => rw [hck] at h; simp [isErr] at h

/-- C7: construction errors propagate — any layer constructed with a kwarg
key outside `{name, logging}` fails with the `Invalid keyword argument`
assertion, and a `GCN` constructed with an `init` value outside
`{\"def\", \"he\"}` fails with its `assert`; both are reported as errors of
the construction call itself (no internal recovery). -/
theorem construction_configuration_errors :
    (∀ (className : String) (kwargs : List (String × KwargValue))
        (uids : LayerUids) (k : String) (v : KwargValue),
        (k, v) ∈ kwargs → k ∉ allowed_kwargs →
        isErr (Layer.init className kwargs uids) = true) ∧
    (∀ {n k d : Type} (support : List (Matrix n n ℚ)) (num_support : Nat)
        (is_train : Bool) (dropout : ℚ) (act : Matrix n d ℚ → Matrix n d ℚ)
        (bias batch_norm : Bool) (init : String)
        (initDef initHe : Nat → Matrix k d ℚ)
        (bn : Bool → Matrix n d ℚ → Matrix n d ℚ),
        init ≠ "def" → init ≠ "he" →
        isErr (GCN.init support num_support is_train dropout act bias
          batch_norm init initDef initHe bn) = true) := by
  constructor
  · intro className kwargs uids k v hmem hk
    exact layer_init_err_of_checkKwargs_err className kwargs uids
      (checkKwargs_mem_error kwargs k v hmem hk)
  · intro n k d support num_support is_train dropout act bias batch_norm
      init initDef initHe bn h1 h2
    simp [GCN.init, h1, h2, isErr]

/-- Witness for C7 at concrete constructions: the kwarg `foo` is rejected,
and `init=\"xavier\"` is rejected. -/
theorem construction_configuration_errors_witness :
    isErr (Layer.init "Dense" [("foo", KwargValue.bool true)] []) = true ∧
      isErr (GCN.init [(1 : Matrix (Fin 1) (Fin 1) ℚ)] 1 false 0 id false
        false "xavier" (fun _ => (0 : Matrix (Fin 1) (Fin 1) ℚ)) (fun _ => 0)
        (fun _ z => z)) = true :=
  ⟨construction_configuration_errors.1 "Dense" [("foo", KwargValue.bool true)]
      [] "foo" (KwargValue.bool true) (by simp) (by decide),
   construction_configuration_errors.2 _ 1 false 0 id false false "xavier"
      _ _ _ (by decide) (by decide)⟩

/-! ### `MLPDecoder` layer -/

/-- State established by `MLPDecoder.__init__` (`N` = node rows,
`k = input_dim`, `nOut = n_out`): the uniform-random weights (externalised
into the `weights` argument), the optional zero bias, the row/column index
lists and the flags.  The `num_classes` constructor argument is accepted but
never stored.  `act` is applied elementwise (the code's default is the
identity). -/
structure MLPDecoderLayer (N k : Type) (nOut : Nat) where
  weights : Matrix k (Fin nOut) ℚ
  bias : Option (Fin nOut → ℚ)
  r_indices : List N
  c_indices : List N
  dropout : ℚ
  use_bias : Bool
  act : ℚ → ℚ

/-- Constructor `MLPDecoder.__init__(num_classes, r_indices, c_indices, input_dim, ...)`:
creates the weight tensor (and the zero bias when `use_bias`), stores the
index lists, dropout, activation and `use_bias`; `num_classes` is discarded,
exactly as in the source. -/
def MLPDecoder.init {N k : Type} {nOut : Nat} (_num_classes : Nat)
    (r_indices c_indices : List N) (weights : Matrix k (Fin nOut) ℚ)
    (dropout : ℚ) (act : ℚ → ℚ) (use_bias : Bool) : MLPDecoderLayer N k nOut :=
  { weights := weights
    bias := if use_bias then some (fun _ => 0) else none
    r_indices := r_indices
    c_indices := c_indices
    dropout := dropout
    use_bias := use_bias
    act := act }

/-- Computation `MLPDecoder._call(inputs)` up to (and excluding) squeeze and activation:
dropout, `tf.gather` of the row and column representations, the element-wise
absolute difference, the dense matmul with the weights, and the optional
bias add.  The result is the list of per-pair pre-activation score vectors;
mismatched index-list lengths are the tensor engine's shape error (`none`). -/
def MLPDecoder.preAct {N k : Type} [Fintype k] {nOut : Nat}
    (L : MLPDecoderLayer N k nOut) (mask : N → k → Bool)
    (inputs : Matrix N k ℚ) : Option (List (Fin nOut → ℚ)) :=
  let node_inputs := tfDropout (1 - L.dropout) mask inputs
  if L.r_indices.length = L.c_indices.length then
    some ((L.r_indices.zip L.c_indices).map fun rc o =>
      (∑ m, |node_inputs rc.1 m - node_inputs rc.2 m| * L.weights m o) +
        (if L.use_bias then L.bias.getD (fun _ => 0) o else 0))
  else none

/-- Computation `MLPDecoder._call(inputs)` including the final activation (applied
elementwise); the squeeze step only reshapes and is modelled at shape level
by `MLPDecoder.outputShape`. -/
def MLPDecoder.callScores {N k : Type} [Fintype k] {nOut : Nat}
    (L : MLPDecoderLayer N k nOut) (mask : N → k → Bool)
    (inputs : Matrix N k ℚ) : Option (List (Fin nOut → ℚ)) :=
  (MLPDecoder.preAct L mask inputs).map (List.map fun f o => L.act (f o))

/-- Primitive `tf.squeeze(t)` with no `axis` argument: removes ALL dimensions of size
one from the shape. -/
def tfSqueezeShape (s : List Nat) : List Nat := s.filter fun d => d ≠ 1

/-- Shape semantics of `MLPDecoder._call`: the matmul of the
`len(r_indices) × input_dim` difference matrix with the
`input_dim × n_out` weights has shape `[len(r_indices), n_out]`, and
`if self.n_out == 1: outputs = tf.squeeze(outputs)` is applied to it. -/
def MLPDecoder.outputShape {N k : Type} {nOut : Nat}
    (L : MLPDecoderLayer N k nOut) : List Nat :=
  let pre := [L.r_indices.length, nOut]
  if nOut = 1 then tfSqueezeShape pre else pre

/-- Per-pair pre-activation score `(i, j) ↦ Σₘ |xᵢₘ − xⱼₘ|·Wₘ`, the closed
form of one row of `MLPDecoder.preAct` (zero-initialised bias included). -/
def pairScore {N k : Type} [Fintype k] {nOut : Nat}
    (W : Matrix k (Fin nOut) ℚ) (x : Matrix N k ℚ) (i j : N) :
    Fin nOut → ℚ :=
  fun o => ∑ m, |x i m - x j m| * W m o

/-- C8: the decoder built on the pair list `r = [i, j]`, `c = [j, i]` with
zero dropout produces exactly the two pre-activation scores
`pairScore x i j` and `pairScore x j i`, and these are equal — the
element-wise absolute difference makes the score symmetric under swapping
the row and column index of a pair. -/
theorem decoder_pairing_symmetry {N k : Type} [Fintype k] {nOut : Nat}
    (num_classes : Nat) (W : Matrix k (Fin nOut) ℚ) (act : ℚ → ℚ)
    (use_bias : Bool) (mask : N → k → Bool) (x : Matrix N k ℚ) (i j : N) :
    MLPDecoder.preAct (MLPDecoder.init num_classes [i, j] [j, i] W 0 act use_bias)
        mask x = some [pairScore W x i j, pairScore W x j i] ∧
      pairScore W x i j = pairScore W x j i := by
  constructor
  · cases use_bias <;>
      simp [MLPDecoder.preAct, MLPDecoder.init, tfDropout, pairScore] <;>
      exact ⟨rfl, rfl⟩
  · funext o
    simp only [pairScore]
    refine Finset.sum_congr rfl fun m _ => ?_
    rw [abs_sub_comm]

/-- C9: two `MLPDecoder` layers identical except for `num_classes` are equal
as constructed states and their core computation agrees on every input —
`num_classes` has no influence on the scoring computation. -/
theorem num_classes_noninterference {N k : Type} [Fintype k] {nOut : Nat}
    (nc₁ nc₂ : Nat) (r_indices c_indices : List N)
    (W : Matrix k (Fin nOut) ℚ) (dropout : ℚ) (act : ℚ → ℚ) (use_bias : Bool)
    (mask : N → k → Bool) (x : Matrix N k ℚ) :
    MLPDecoder.init (N := N) nc₁ r_indices c_indices W dropout act use_bias =
        MLPDecoder.init nc₂ r_indices c_indices W dropout act use_bias ∧
      MLPDecoder.callScores
          (MLPDecoder.init nc₁ r_indices c_indices W dropout act use_bias) mask x =
        MLPDecoder.callScores
          (MLPDecoder.init nc₂ r_indices c_indices W dropout act use_bias) mask x :=
  ⟨rfl, rfl⟩

/-- C3 counterexample: for a decoder with `n_out = 1` and a single candidate
pair (`len(row_indices) = 1`), the pre-squeeze product has shape `[1, 1]`
and `tf.squeeze` (no axis) removes BOTH singleton dimensions: the output is
a rank-0 scalar, not a rank-1 tensor of length 1 — the rank drops by two,
not one. -/
theorem decoder_squeeze_counterexample :
    MLPDecoder.outputShape (MLPDecoder.init 0 [(0 : Fin 1)] [0]
        (0 : Matrix (Fin 1) (Fin 1) ℚ) 0 id false) = [] ∧
      ¬ ((MLPDecoder.outputShape (MLPDecoder.init 0 [(0 : Fin 1)] [0]
          (0 : Matrix (Fin 1) (Fin 1) ℚ) 0 id false)).length =
        ([1, 1] : List Nat).length - 1) := by
  constructor
  · rfl
  · decide

/-- C3 (amended): for `n_out = 1` and `len(row_indices) ≠ 1` the squeeze
removes exactly the trailing singleton dimension — the output shape is
`[len(row_indices)]`, of rank one less than the pre-squeeze product's rank
`2`; for `len(row_indices) = 1` the output is instead a rank-0 scalar. -/
theorem decoder_squeeze_amended {N k : Type} (L : MLPDecoderLayer N k 1)
    (h : L.r_indices.length ≠ 1) :
    MLPDecoder.outputShape L = [L.r_indices.length] ∧
      (MLPDecoder.outputShape L).length =
        ([L.r_indices.length, 1] : List Nat).length - 1 := by
  have hshape : MLPDecoder.outputShape L = [L.r_indices.length] := by
    simp [MLPDecoder.outputShape, tfSqueezeShape, h]
  exact ⟨hshape, by rw [hshape]; rfl⟩

/-- Witness for C3's amended theorem at a concrete two-pair decoder. -/
theorem decoder_squeeze_amended_witness :
    MLPDecoder.outputShape (MLPDecoder.init 0 [(0 : Fin 2), 1] [1, 0]
        (0 : Matrix (Fin 1) (Fin 1) ℚ) 0 id false) = [2] ∧
      (MLPDecoder.outputShape (MLPDecoder.init 0 [(0 : Fin 2), 1] [1, 0]
          (0 : Matrix (Fin 1) (Fin 1) ℚ) 0 id false)).length =
        ([2, 1] : List Nat).length - 1 := by
  have h := decoder_squeeze_amended (MLPDecoder.init 0 [(0 : Fin 2), 1] [1, 0]
    (0 : Matrix (Fin 1) (Fin 1) ℚ) 0 id false) (by decide)
  simpa using h

end VCP
